import Mathlib

/-!
Verification development for the ingest-broker web backend.

The definitions below are a shallow embedding of `broker_app.py` and of the
spreadsheet-generation component.  Pure response-shaping functions become Lean
functions; the mutable `IngestApi` client state is threaded explicitly; Python
exceptions become explicit result values; the thread dispatch of the upload
worker is recorded as an action trace.
-/

namespace Broker

/-- A JSON value, restricted to the shapes the broker app actually builds:
strings and objects (ordered key/value lists, as Python dicts are built). -/
inductive Json where
  | str : String → Json
  | obj : List (String × Json) → Json

/-- Look up a key in a JSON object (first binding wins, as in a Python dict
built without duplicate keys). -/
def Json.lookup (j : Json) (k : String) : Option Json :=
  match j with
  | .str _ => none
  | .obj kvs => (kvs.find? (fun kv => kv.fst = k)).map Prod.snd

/-- The keys of a JSON object, in insertion order. -/
def Json.keys : Json → List String
  | .str _ => []
  | .obj kvs => kvs.map Prod.fst

/-- A response body as handed to `app.response_class` / `send_file`:
`jsonBody` is a dict the app serialised with `json.dumps`; `rawDict` is a
dict passed WITHOUT serialisation (Werkzeug then iterates it, so only its
keys reach the wire); `fileAttachment` is a binary blob from `send_file`. -/
inductive Body where
  | jsonBody : Json → Body
  | rawDict : List (String × Json) → Body
  | fileAttachment (name : String) (blob : List Nat) : Body

/-- The text Werkzeug actually puts on the wire for a dict passed to the
response class without serialisation: iterating a Python dict yields its
keys, which are concatenated into the body.  `json.dumps` strings and file
blobs are emitted as themselves and are not modelled here. -/
def Body.iterText : Body → Option String
  | .jsonBody _ => none
  | .rawDict kvs => some (String.join (kvs.map Prod.fst))
  | .fileAttachment _ _ => none

/-- An HTTP response as assembled via `app.response_class(...)`. -/
structure Response where
  status : Nat
  mimetype : String
  body : Body

/-- `SPREADSHEET_UPLOAD_MESSAGE` from `broker_app.py` (the Python source uses
a backslash line continuation, so no space appears after `data.`). -/
def SPREADSHEET_UPLOAD_MESSAGE : String :=
  "We’ve got your spreadsheet, and we’re currently importing and validating the data.Nothing else for you to do - check back later."

/-- `SPREADSHEET_UPLOAD_MESSAGE_ERROR` from `broker_app.py`. -/
def SPREADSHEET_UPLOAD_MESSAGE_ERROR : String :=
  "We experienced a problem while uploading your spreadsheet"

/-- The message `_set_token` raises when the `Authorization` header is
missing. -/
def AUTH_TOKEN_MESSAGE : String :=
  "An authentication token must be supplied when uploading a spreadsheet"

/-- `SpreadsheetUploadError(http_code, message, details)` from the ingest
importer library, as raised and caught in `broker_app.py`. -/
structure SpreadsheetUploadError where
  http_code : Nat
  message : String
  details : String
deriving DecidableEq

/-- The mutable state of the module-level `IngestApi` client that
`broker_app.py` shares across requests: the claims only concern its token
field, set via `set_token`. -/
structure IngestApi where
  token : Option String
deriving DecidableEq

/-- `IngestApi.set_token` (external client): stores the given token on the
shared client instance. -/
def IngestApi.set_token (api : IngestApi) (t : Option String) : IngestApi :=
  { api with token := t }

/-- `_set_token` from `broker_app.py`: reads the request's `Authorization`
header (`none` when absent), assigns it to the shared `ingest_api` client,
and only then raises `SpreadsheetUploadError(401, ..., "")` when the header
was absent.  Returns the updated client state together with the token or the
raised error. -/
def _set_token (api : IngestApi) (reqToken : Option String) :
    IngestApi × Except SpreadsheetUploadError String :=
  let api2 := api.set_token reqToken
  match reqToken with
  | none => (api2, .error ⟨401, AUTH_TOKEN_MESSAGE, ""⟩)
  | some t => (api2, .ok t)

/-- The `uuid` sub-object of a submission resource (`resource['uuid']`). -/
structure ResourceUuid where
  uuid : String
deriving DecidableEq

/-- A HAL link (`{'href': ...}`). -/
structure Link where
  href : String
deriving DecidableEq

/-- The `_links` object of a submission resource. -/
structure ResourceLinks where
  self : Link
deriving DecidableEq

/-- The submission resource returned by `ingest_api.create_submission`, with
the fields `_success_response` reads: `resource['uuid']['uuid']` and
`resource['_links']['self']['href']`. -/
structure SubmissionResource where
  uuid : ResourceUuid
  links : ResourceLinks
deriving DecidableEq

/-- Python `s.rsplit(c, 1)`: split at the last occurrence of `c`, at most
once.  Returns `[s]` when `c` does not occur, else the parts before and after
the last occurrence. -/
def pyRsplitOnce (s : String) (c : Char) : List String :=
  let rev := s.data.reverse
  match rev.dropWhile (fun x => decide (x ≠ c)) with
  | [] => [s]
  | _ :: before =>
    [String.mk before.reverse, String.mk (rev.takeWhile (fun x => decide (x ≠ c))).reverse]

/-- `_success_response` from `broker_app.py`: HTTP 201 with the upload
message and the submission url, uuid and id (the id being
`submission_url.rsplit('/', 1)[-1]`). -/
def _success_response (res : SubmissionResource) : Response :=
  let submission_uuid := res.uuid.uuid
  let submission_url := res.links.self.href
  let submission_id := (pyRsplitOnce submission_url '/').getLastD ""
  { status := 201
    mimetype := "application/json"
    body := .jsonBody (.obj
      [("message", .str SPREADSHEET_UPLOAD_MESSAGE),
       ("details", .obj
         [("submission_url", .str submission_url),
          ("submission_uuid", .str submission_uuid),
          ("submission_id", .str submission_id)])]) }

/-- `_failure_response` from `broker_app.py`. -/
def _failure_response (status_code : Nat) (message details : String) : Response :=
  { status := status_code
    mimetype := "application/json"
    body := .jsonBody (.obj [("message", .str message), ("details", .str details)]) }

/-- Outcome of a Python call that may raise: a normal value, a
`SpreadsheetUploadError`, or any other exception (carried as `str(err)`). -/
inductive PyResult (α : Type) where
  | ok : α → PyResult α
  | spreadsheetError : SpreadsheetUploadError → PyResult α
  | otherError : String → PyResult α
deriving DecidableEq

/-- Observable actions on the synchronous request path, used to state the
ordering of submission creation, worker dispatch and the HTTP response. -/
inductive Action where
  | createSubmission (update_submission : Bool)
  | startThread
  | joinThread
  | httpRespond (status : Nat)
deriving DecidableEq

/-- Log entries emitted on the synchronous path; `errorTraceback` stands for
`logger.error(traceback.format_exc())`. -/
inductive LogEntry where
  | info : String → LogEntry
  | errorTraceback : String → LogEntry
deriving DecidableEq

/-- `_async_upload` from `broker_app.py`: creates the submission through the
external API, then starts the detached worker thread and returns the
resource — without ever joining the thread.  The environment's behaviour of
`create_submission` is a parameter; on an exception there the thread is never
started.  The returned trace records the actions in source order. -/
def _async_upload (is_update : Bool) (createResult : PyResult SubmissionResource) :
    PyResult SubmissionResource × List Action :=
  match createResult with
  | .ok res => (.ok res, [.createSubmission is_update, .startThread])
  | .spreadsheetError e => (.spreadsheetError e, [.createSubmission is_update])
  | .otherError e => (.otherError e, [.createSubmission is_update])

/-- Result of one run of `_upload_spreadsheet`: updated shared client state,
the HTTP response, the log entries and the action trace of the synchronous
path. -/
structure UploadResult where
  api : IngestApi
  resp : Response
  log : List LogEntry
  actions : List Action

/-- `_upload_spreadsheet` from `broker_app.py`: sets the token (may raise),
runs `_async_upload`, and converts the outcome into an HTTP response —
`SpreadsheetUploadError` to its declared code/message/details, any other
exception to HTTP 500 with the generic error message and a logged traceback,
success to `_success_response`.  `asyncOutcome` parametrises what the
environment (`create_submission`) does. -/
def _upload_spreadsheet (api : IngestApi) (reqToken : Option String)
    (is_update : Bool) (asyncOutcome : PyResult SubmissionResource) : UploadResult :=
  match _set_token api reqToken with
  | (api2, .error e) =>
    { api := api2
      resp := _failure_response e.http_code e.message e.details
      log := [.info "Checking token"]
      actions := [.httpRespond e.http_code] }
  | (api2, .ok _) =>
    match _async_upload is_update asyncOutcome with
    | (.ok res, acts) =>
      { api := api2
        resp := _success_response res
        log := [.info "Checking token", .info "Uploading spreadsheet!",
                .info ("Created Submission: " ++ res.links.self.href)]
        actions := acts ++ [.httpRespond 201] }
    | (.spreadsheetError e, acts) =>
      { api := api2
        resp := _failure_response e.http_code e.message e.details
        log := [.info "Checking token", .info "Uploading spreadsheet!"]
        actions := acts ++ [.httpRespond e.http_code] }
    | (.otherError err, acts) =>
      { api := api2
        resp := _failure_response 500 SPREADSHEET_UPLOAD_MESSAGE_ERROR err
        log := [.info "Checking token", .info "Uploading spreadsheet!", .errorTraceback err]
        actions := acts ++ [.httpRespond 500] }

/-- What a route handler produces as seen by Flask: a built response, or an
exception that escaped the handler (which Flask turns into a generic 500
Internal Server Error, not an application JSON body). -/
inductive HandlerOutcome where
  | response : Response → HandlerOutcome
  | uncaughtError : SpreadsheetUploadError → HandlerOutcome

/-- Route handler for `POST /api_upload`: delegates to
`_upload_spreadsheet`, whose try/except catches every error, so it always
returns a response. -/
def upload_spreadsheet (api : IngestApi) (reqToken : Option String)
    (asyncOutcome : PyResult SubmissionResource) : IngestApi × HandlerOutcome :=
  let r := _upload_spreadsheet api reqToken false asyncOutcome
  (r.api, .response r.resp)

/-- Route handler for `POST /api_upload_update`: calls `_set_token()` at the
route level, OUTSIDE the try/except of `_upload_spreadsheet`, then delegates
with `is_update=True`.  An error raised by that first `_set_token` call
escapes the handler uncaught. -/
def upload_update_spreadsheet (api : IngestApi) (reqToken : Option String)
    (asyncOutcome : PyResult SubmissionResource) : IngestApi × HandlerOutcome :=
  match _set_token api reqToken with
  | (api2, .error e) => (api2, .uncaughtError e)
  | (api2, .ok _) =>
    let r := _upload_spreadsheet api2 reqToken true asyncOutcome
    (r.api, .response r.resp)

/-- A stored spreadsheet as returned by
`SpreadsheetStorageService.retrieve`. -/
structure StoredSpreadsheet where
  name : String
  blob : List Nat
deriving DecidableEq

/-- Route handler for `GET /submissions/<submission_uuid>/spreadsheet`:
returns the stored blob as a binary attachment, or — when the storage
service raises `SubmissionSpreadsheetDoesntExist`, modelled by `none` — an
HTTP 404 response.  Unlike `_failure_response` and `_success_response`,
this branch of the source passes its dict to `app.response_class` WITHOUT
`json.dumps`, so the body is the raw, unserialised dict. -/
def get_submission_spreadsheet (stored : Option StoredSpreadsheet)
    (submission_uuid : String) : Response :=
  match stored with
  | some s =>
    { status := 200, mimetype := "application/octet-stream"
      body := .fileAttachment s.name s.blob }
  | none =>
    { status := 404, mimetype := "application/json"
      body := .rawDict
        [("message", .str ("No spreadsheet found for submission with uuid " ++ submission_uuid))] }

/-!
Spreadsheet generation component.  Its implementation file
(`broker/service/spreadsheet_generation/spreadsheet_generator.py`) is not
part of the sources at hand — only its test is — so the definitions below
are modelled from the specification (§3, §4.1) and checked against the
behaviours the repository's test asserts.
-/

/-- Modelled from the spec: `context_to_path_string` of
`SpreadsheetGenerator` (implementation file missing; §4.1: "joins with
`.`").  Joins the context segments with `.`, the empty context giving the
empty string. -/
def context_to_path_string : List String → String
  | [] => ""
  | [a] => a
  | a :: rest => a ++ "." ++ context_to_path_string rest

/-- Modelled from the spec: `LinkSpec` (§3) of the spreadsheet generator
(implementation file missing). -/
structure LinkSpec where
  linked_types : List String
  linked_multivalue_types : List String
deriving DecidableEq

/-- Modelled from the spec: `TypeSpec` (§3) of the spreadsheet generator
(implementation file missing): one entity type's shape, with its own
fields, embedded sub-object specs, multivalue flag and link spec. -/
inductive TypeSpec where
  | mk (name : String) (own_fields : List String) (nested_specs : List TypeSpec)
      (is_multivalue : Bool) (link_spec : LinkSpec)

/-- The `name` field of a `TypeSpec`. -/
def TypeSpec.name : TypeSpec → String
  | .mk n _ _ _ _ => n

/-- The `own_fields` field of a `TypeSpec`. -/
def TypeSpec.own_fields : TypeSpec → List String
  | .mk _ f _ _ _ => f

/-- The `nested_specs` field of a `TypeSpec`. -/
def TypeSpec.nested_specs : TypeSpec → List TypeSpec
  | .mk _ _ ns _ _ => ns

/-- The `link_spec` field of a `TypeSpec`. -/
def TypeSpec.link_spec : TypeSpec → LinkSpec
  | .mk _ _ _ _ ls => ls

/-- Modelled from the spec: `Column` (§3) — a dot-separated path and a link
flag. -/
structure Column where
  path : String
  is_link : Bool
deriving DecidableEq

/-- Modelled from the spec: `Tab` (§3) — the ordered columns generated for
one `TypeSpec`. -/
structure Tab where
  columns : List Column
deriving DecidableEq

/-- Modelled from the spec: the column walk of `tab_for_type` (§4.1,
implementation file missing).  Emits one column per own field with path
`context_to_path_string (context ++ [field])`, recurses into the nested
specs extending the context with the nested type's name, and emits one link
column `<linked_type>.biomaterial_core.biomaterial_id` with `is_link = true`
per entry of `link_spec.linked_types`. -/
def columns_for_type (context : List String) : TypeSpec → List Column
  | .mk _name own nested _multi links =>
    own.map (fun f => ⟨context_to_path_string (context ++ [f]), false⟩)
    ++ (nested.attach.map
          (fun n => columns_for_type (context ++ [n.1.name]) n.1)).flatten
    ++ links.linked_types.map
          (fun t => ⟨t ++ ".biomaterial_core.biomaterial_id", true⟩)
decreasing_by
  have := List.sizeOf_lt_of_mem n.2
  cases n
  simp_all
  omega

/-- Modelled from the spec: `SpreadsheetGenerator.tab_for_type` (§4.1,
implementation file missing): the Tab of all columns generated for a
`TypeSpec`, starting from the empty context (§8: a lone own field `f` yields
the path `f`). -/
def tab_for_type (spec : TypeSpec) : Tab :=
  ⟨columns_for_type [] spec⟩

/-- Accessor: the `submission_id` entry of the `details` object of the
success response built for a submission resource. -/
def details_submission_id (res : SubmissionResource) : Option Json :=
  match (_success_response res).body with
  | .jsonBody j => (j.lookup "details").bind (fun d => d.lookup "submission_id")
  | .rawDict _ => none
  | .fileAttachment _ _ => none

/-!  Theorems: the claims, settled against the embedding above.  -/

/-- Helper: `takeWhile` walks through a block whose elements all satisfy the
predicate. -/
theorem takeWhile_all_append {α : Type} (p : α → Bool) (a b : List α)
    (h : ∀ x ∈ a, p x = true) :
    (a ++ b).takeWhile p = a ++ b.takeWhile p := by
  induction a with
  | nil => simp
  | cons x xs ih =>
    have hx : p x = true := h x (by simp)
    simp only [List.cons_append, List.takeWhile_cons, hx, if_true]
    rw [ih (fun y hy => h y (by simp [hy]))]

/-- Helper: `dropWhile` discards a block whose elements all satisfy the
predicate. -/
theorem dropWhile_all_append {α : Type} (p : α → Bool) (a b : List α)
    (h : ∀ x ∈ a, p x = true) :
    (a ++ b).dropWhile p = b.dropWhile p := by
  induction a with
  | nil => simp
  | cons x xs ih =>
    have hx : p x = true := h x (by simp)
    simp only [List.cons_append, List.dropWhile_cons, hx, if_true]
    exact ih (fun y hy => h y (by simp [hy]))

/-- Helper: `rsplit(c, 1)[-1]` of a string not containing `c` is the string
itself. -/
theorem pyRsplitOnce_getLastD_of_no_sep (s : String) (c : Char)
    (h : c ∉ s.data) :
    (pyRsplitOnce s c).getLastD "" = s := by
  have hall : ∀ x ∈ s.data.reverse, (fun x => !decide (x = c)) x = true := by
    intro x hx
    simp only [Bool.not_eq_eq_eq_not, Bool.not_true, decide_eq_false_iff_not]
    intro hxc
    exact h (by simpa [hxc] using List.mem_reverse.mp hx)
  have hdrop : s.data.reverse.dropWhile (fun x => !decide (x = c)) = [] :=
    List.dropWhile_eq_nil_iff.mpr hall
  simp [pyRsplitOnce, hdrop]

/-- Helper: `rsplit(c, 1)[-1]` returns the suffix after the last occurrence
of `c`. -/
theorem pyRsplitOnce_getLastD_of_split (s : String) (c : Char)
    (pre suf : List Char) (hs : s.data = pre ++ c :: suf) (hsuf : c ∉ suf) :
    (pyRsplitOnce s c).getLastD "" = String.mk suf := by
  have hrev : s.data.reverse = suf.reverse ++ c :: pre.reverse := by
    simp [hs, List.reverse_append]
  have hall : ∀ x ∈ suf.reverse, (fun x => !decide (x = c)) x = true := by
    intro x hx
    simp only [Bool.not_eq_eq_eq_not, Bool.not_true, decide_eq_false_iff_not]
    intro hxc
    exact hsuf (by simpa [hxc] using List.mem_reverse.mp hx)
  have hdrop : s.data.reverse.dropWhile (fun x => !decide (x = c)) = c :: pre.reverse := by
    rw [hrev, dropWhile_all_append _ _ _ hall]
    simp [List.dropWhile_cons]
  have htake : s.data.reverse.takeWhile (fun x => !decide (x = c)) = suf.reverse := by
    rw [hrev, takeWhile_all_append _ _ _ hall]
    simp [List.takeWhile_cons]
  simp [pyRsplitOnce, hdrop, htake]

/-- C1: on a POST without `Authorization` header, `/api_upload` does return
the claimed HTTP 401 JSON body, but `/api_upload_update` does not: its
route-level `_set_token()` call sits outside the try/except of
`_upload_spreadsheet`, so the `SpreadsheetUploadError(401, ...)` escapes the
handler uncaught (Flask then produces a generic 500, not the application's
401 JSON response). -/
theorem upload_update_missing_token_escapes (api : IngestApi)
    (outc : PyResult SubmissionResource) :
    (upload_spreadsheet api none outc).2 =
      .response (_failure_response 401 AUTH_TOKEN_MESSAGE "") ∧
    (upload_update_spreadsheet api none outc).2 =
      .uncaughtError ⟨401, AUTH_TOKEN_MESSAGE, ""⟩ :=
  ⟨rfl, rfl⟩

/-- C2: `context_to_path_string` joins its context with `.`: it returns `""`
on the empty context, the lone element on a singleton, `"a.b.c"` on
`["a", "b", "c"]`, and satisfies the general join recurrence on any
non-empty tail. -/
theorem context_to_path_string_joins :
    context_to_path_string [] = "" ∧
    (∀ a : String, context_to_path_string [a] = a) ∧
    context_to_path_string ["a", "b", "c"] = "a.b.c" ∧
    ∀ (a : String) (rest : List String), rest ≠ [] →
      context_to_path_string (a :: rest) = a ++ "." ++ context_to_path_string rest := by
  refine ⟨rfl, fun a => rfl, rfl, ?_⟩
  intro a rest h
  match rest with
  | [] => exact absurd rfl h
  | b :: t => rfl

/-- Witness for C2 at the concrete context of the repository's test. -/
theorem context_to_path_string_joins_witness :
    context_to_path_string ["project", "project_core", "project_shortname"] =
      "project" ++ "." ++ context_to_path_string ["project_core", "project_shortname"] :=
  context_to_path_string_joins.2.2.2 "project" ["project_core", "project_shortname"]
    (by decide)

/-- C3: for any `TypeSpec` without own fields whose `link_spec.linked_types`
contains `T`, `tab_for_type` emits a link column with path
`<T>.biomaterial_core.biomaterial_id` and `is_link = true`. -/
theorem tab_for_type_link_column (name : String) (nested : List TypeSpec)
    (multi : Bool) (links : LinkSpec) (T : String)
    (hT : T ∈ links.linked_types) :
    (⟨T ++ ".biomaterial_core.biomaterial_id", true⟩ : Column) ∈
      (tab_for_type (.mk name [] nested multi links)).columns := by
  simp only [tab_for_type, columns_for_type]
  refine List.mem_append_right _ ?_
  exact List.mem_map.mpr ⟨T, hT, rfl⟩

/-- Witness for C3 at the test's concrete input:
`TypeSpec("cell_suspension", [], [], False, LinkSpec(["donor_organism"], []))`. -/
theorem tab_for_type_link_column_witness :
    (⟨"donor_organism" ++ ".biomaterial_core.biomaterial_id", true⟩ : Column) ∈
      (tab_for_type (.mk "cell_suspension" [] [] false ⟨["donor_organism"], []⟩)).columns :=
  tab_for_type_link_column "cell_suspension" [] false ⟨["donor_organism"], []⟩
    "donor_organism" (by decide)

/-- C4: retrieving the spreadsheet of a submission for which none is stored
does yield HTTP 404, but the intended JSON body never reaches the client:
the source hands the message dict to `app.response_class` without
`json.dumps`, so the dict is iterated and the wire body is the literal text
`message` — regardless of the uuid, which therefore never appears in the
response. -/
theorem get_submission_spreadsheet_not_found_raw (submission_uuid : String) :
    (get_submission_spreadsheet none submission_uuid).status = 404 ∧
    (get_submission_spreadsheet none submission_uuid).body =
      .rawDict
        [("message", .str ("No spreadsheet found for submission with uuid " ++ submission_uuid))] ∧
    (get_submission_spreadsheet none submission_uuid).body.iterText = some "message" :=
  ⟨rfl, rfl, rfl⟩

/-- C5: a successful upload returns HTTP 201 with a JSON body made of a
`message` key and a `details` object holding exactly the keys
`submission_url`, `submission_uuid` and `submission_id`. -/
theorem upload_success_response_shape (api : IngestApi) (t : String)
    (u : Bool) (res : SubmissionResource) :
    (_upload_spreadsheet api (some t) u (.ok res)).resp.status = 201 ∧
    ∃ (msg : Json) (dkvs : List (String × Json)),
      (_upload_spreadsheet api (some t) u (.ok res)).resp.body =
        .jsonBody (.obj [("message", msg), ("details", .obj dkvs)]) ∧
      msg = .str SPREADSHEET_UPLOAD_MESSAGE ∧
      dkvs.map Prod.fst = ["submission_url", "submission_uuid", "submission_id"] :=
  ⟨rfl, .str SPREADSHEET_UPLOAD_MESSAGE, _, rfl, rfl, rfl⟩

/-- C6: an exception other than `SpreadsheetUploadError` on the synchronous
upload path yields HTTP 500 with the fixed generic message, and the stack
trace is logged. -/
theorem upload_unexpected_exception_500 (api : IngestApi) (t : String)
    (u : Bool) (err : String) :
    (_upload_spreadsheet api (some t) u (.otherError err)).resp =
      _failure_response 500 SPREADSHEET_UPLOAD_MESSAGE_ERROR err ∧
    (_upload_spreadsheet api (some t) u (.otherError err)).resp.status = 500 ∧
    LogEntry.errorTraceback err ∈ (_upload_spreadsheet api (some t) u (.otherError err)).log := by
  refine ⟨rfl, rfl, ?_⟩
  simp [_upload_spreadsheet, _set_token, _async_upload]

/-- C7: a `SpreadsheetUploadError` raised on the synchronous upload path —
from the missing-token check or from the dispatch code — produces a response
with exactly the error's http code, message and details. -/
theorem upload_spreadsheet_error_response (api : IngestApi)
    (reqToken : Option String) (u : Bool) (outc : PyResult SubmissionResource)
    (e : SpreadsheetUploadError)
    (h : (reqToken = none ∧ e = ⟨401, AUTH_TOKEN_MESSAGE, ""⟩) ∨
         ((∃ t, reqToken = some t) ∧ outc = .spreadsheetError e)) :
    (_upload_spreadsheet api reqToken u outc).resp =
      _failure_response e.http_code e.message e.details ∧
    (_upload_spreadsheet api reqToken u outc).resp.status = e.http_code ∧
    (_upload_spreadsheet api reqToken u outc).resp.body =
      .jsonBody (.obj [("message", .str e.message), ("details", .str e.details)]) := by
  rcases h with ⟨hnone, he⟩ | ⟨⟨t, ht⟩, houtc⟩
  · subst hnone; subst he
    exact ⟨rfl, rfl, rfl⟩
  · subst ht; subst houtc
    exact ⟨rfl, rfl, rfl⟩

/-- Witness for C7 at a concrete structural upload error. -/
theorem upload_spreadsheet_error_response_witness :
    (_upload_spreadsheet ⟨none⟩ (some "tok") false
        (.spreadsheetError ⟨400, "bad format", "row 3"⟩)).resp =
      _failure_response 400 "bad format" "row 3" ∧
    (_upload_spreadsheet ⟨none⟩ (some "tok") false
        (.spreadsheetError ⟨400, "bad format", "row 3"⟩)).resp.status = 400 ∧
    (_upload_spreadsheet ⟨none⟩ (some "tok") false
        (.spreadsheetError ⟨400, "bad format", "row 3"⟩)).resp.body =
      .jsonBody (.obj [("message", .str "bad format"), ("details", .str "row 3")]) :=
  upload_spreadsheet_error_response ⟨none⟩ (some "tok") false
    (.spreadsheetError ⟨400, "bad format", "row 3"⟩) ⟨400, "bad format", "row 3"⟩
    (Or.inr ⟨⟨"tok", rfl⟩, rfl⟩)

/-- C8: on a successful upload the synchronous action trace is exactly
submission creation, then worker-thread start, then the HTTP 201 response —
so the submission is created before the worker starts, the response is
returned after dispatch without waiting for the worker, and the thread is
never joined. -/
theorem upload_success_dispatch_order (api : IngestApi) (t : String)
    (u : Bool) (res : SubmissionResource) :
    (_upload_spreadsheet api (some t) u (.ok res)).actions =
      [.createSubmission u, .startThread, .httpRespond 201] ∧
    Action.joinThread ∉ (_upload_spreadsheet api (some t) u (.ok res)).actions ∧
    ∃ i j k : Nat, i < j ∧ j < k ∧
      (_upload_spreadsheet api (some t) u (.ok res)).actions[i]? =
        some (.createSubmission u) ∧
      (_upload_spreadsheet api (some t) u (.ok res)).actions[j]? = some .startThread ∧
      (_upload_spreadsheet api (some t) u (.ok res)).actions[k]? =
        some (.httpRespond 201) := by
  refine ⟨rfl, ?_, 0, 1, 2, by omega, by omega, rfl, rfl, rfl⟩
  simp [_upload_spreadsheet, _set_token, _async_upload]

/-- C9: `_set_token` stores the request's token value on the shared
`IngestApi` client before the missing-token check, so even a request with no
`Authorization` header overwrites the shared token field (with `none`) on
its way to the 401 error. -/
theorem set_token_overwrites_shared_state :
    (∀ (api : IngestApi) (reqToken : Option String),
        ((_set_token api reqToken).1).token = reqToken) ∧
    (∀ api : IngestApi,
        (_set_token api none).2 = .error ⟨401, AUTH_TOKEN_MESSAGE, ""⟩) ∧
    ∀ (api : IngestApi) (outc : PyResult SubmissionResource),
        ((upload_spreadsheet api none outc).1).token = none := by
  refine ⟨?_, fun api => rfl, fun api outc => rfl⟩
  intro api reqToken
  cases reqToken <;> rfl

/-- C10: in a successful upload response, the `submission_id` of the
`details` object is the substring of `submission_url` after its last `/`
(the final path segment), and the whole url when it has no `/`. -/
theorem submission_id_is_last_url_segment (res : SubmissionResource) :
    (('/' ∉ res.links.self.href.data) →
        details_submission_id res = some (.str res.links.self.href)) ∧
    ∀ (pre suf : List Char), res.links.self.href.data = pre ++ '/' :: suf →
      '/' ∉ suf → details_submission_id res = some (.str (String.mk suf)) := by
  have hbase : details_submission_id res =
      some (.str ((pyRsplitOnce res.links.self.href '/').getLastD "")) := rfl
  constructor
  · intro h
    rw [hbase, pyRsplitOnce_getLastD_of_no_sep _ _ h]
  · intro pre suf hsplit hsuf
    rw [hbase, pyRsplitOnce_getLastD_of_split _ _ pre suf hsplit hsuf]

/-- Witness for C10 at a concrete submission url. -/
theorem submission_id_is_last_url_segment_witness :
    details_submission_id
        ⟨⟨"sub-uuid-1"⟩, ⟨⟨"http://host/api/submissions/abc123"⟩⟩⟩ =
      some (.str (String.mk "abc123".data)) :=
  (submission_id_is_last_url_segment
      ⟨⟨"sub-uuid-1"⟩, ⟨⟨"http://host/api/submissions/abc123"⟩⟩⟩).2
    "http://host/api/submissions".data "abc123".data (by decide) (by decide)

end Broker
